import Mathlib

/-!
Shallow embedding of `downloader.py` (class `MangaDownloader`) and proofs
about its fetch pipeline.  Paths are modelled as lists of components, byte
payloads as lists of bytes, the filesystem as an explicit record, and the
network as a deterministic oracle mapping a request to a response.
-/

/-- A filesystem path, as a list of components (`p / q` in the source is
list append of a component). -/
abbrev FsPath := List String

/-- A byte payload (Python `bytes`). -/
abbrev Bytes := List UInt8

/-- An HTTP request as constructed at a call site: the URL and the explicit
header map passed to the HTTP library at that call. -/
structure Request where
  url : String
  headers : List (String × String)
deriving DecidableEq, Repr

/-- An HTTP response: status code and body. -/
structure HttpResponse where
  status : Nat
  body : Bytes
deriving DecidableEq, Repr

/-- Network-level failure of one request (connection failure or timeout),
before any HTTP status is available. -/
inductive NetError where
  | connectionFailed : NetError
  | timeout : NetError
deriving DecidableEq, Repr

/-- Failure of one single-source fetch attempt, `download__` in the source:
a network-level failure, a non-success HTTP status raised by
`response.raise_for_status()`, or the `Empty response` exception raised on a
zero-length body. -/
inductive FetchError where
  | netFailure : NetError → FetchError
  | httpStatus : Nat → FetchError
  | emptyResponse : FetchError
deriving DecidableEq, Repr

/-- `requests.get(url)` as called in the source: no explicit headers are
passed at these call sites. -/
def requests_get (url : String) : Request :=
  { url := url, headers := [] }

/-- The request `_get_manga_data` issues for the catalog page
(line 29: `requests.get(manga_url)`). -/
def _get_manga_data_request (manga_url : String) : Request :=
  requests_get manga_url

/-- The request `get_chapter_pages` issues for a chapter page
(line 49: `requests.get(chapter_url)`). -/
def get_chapter_pages_request (chapter_url : String) : Request :=
  requests_get chapter_url

/-- The request `download__` issues for one image mirror (line 70:
`session.get(url, headers={'referer': 'https://mangalib.me/'})`). -/
def download__request (url : String) : Request :=
  { url := url, headers := [(("referer"), ("https://mangalib.me/"))] }

/-- The inner function `download__` of `MangaDownloader._download`: issue one
GET for `url` (with the referer header) against the network oracle `net`,
translate `raise_for_status()` (which raises exactly for statuses ≥ 400)
into an error, reject a zero-length body, otherwise return the body.  The
definition consults `net` exactly once: there is no retry at this level. -/
def download__ (net : Request → Except NetError HttpResponse) (url : String) :
    Except FetchError Bytes :=
  match net (download__request url) with
  | .error e => .error (.netFailure e)
  | .ok response =>
    if 400 ≤ response.status then
      .error (.httpStatus response.status)
    else if response.body.isEmpty then
      .error .emptyResponse
    else
      .ok response.body

/-- Whether a fetch attempt succeeded. -/
def fetch_ok : Except FetchError Bytes → Bool
  | .ok _ => true
  | .error _ => false

/-- The error of a failed fetch attempt (junk default on success; only used
under an all-attempts-fail hypothesis). -/
def errOf : Except FetchError Bytes → FetchError
  | .error e => e
  | .ok _ => .emptyResponse

theorem fetch_ok_false_iff (r : Except FetchError Bytes) :
    fetch_ok r = false ↔ ∃ e, r = .error e := by
  cases r <;> simp [fetch_ok]

theorem fetch_ok_true_iff (r : Except FetchError Bytes) :
    fetch_ok r = true ↔ ∃ b, r = .ok b := by
  cases r <;> simp [fetch_ok]

/-- The filesystem: regular files with contents (lookup is first match;
a write prepends) and the set of directories. -/
structure FS where
  files : List (FsPath × Bytes)
  dirs : List FsPath
deriving DecidableEq, Repr

/-- `Path.exists()`: true when a file or a directory is present at `p`. -/
def pathExists (fs : FS) (p : FsPath) : Bool :=
  fs.files.any (fun f => decide (f.1 = p)) || fs.dirs.any (fun d => decide (d = p))

/-- The proper ancestors-and-self chain of a directory path: every nonempty
leading segment. -/
def leading_dirs (dir : FsPath) : List FsPath :=
  (List.range dir.length).map (fun k => dir.take (k + 1))

/-- `to_path.parent.mkdir(parents=True, exist_ok=True)`: create the whole
chain of directories, never failing when some already exist (total:
pre-existing directories are kept and only missing ones are added). -/
def mkdir_parents (fs : FS) (dir : FsPath) : FS :=
  { fs with
    dirs := fs.dirs ++ (leading_dirs dir).filter
      (fun d => !(fs.dirs.any (fun e => decide (e = d)))) }

/-- `open(to_path, 'wb').write(page)`: write (or overwrite) the file. -/
def writeFile (fs : FS) (p : FsPath) (b : Bytes) : FS :=
  { fs with files := (p, b) :: fs.files }

/-- Result of the mirror loop of `download_`: either the first success —
carrying the payload and the index of the mirror that produced it (the index
equals the number of failures recorded before it) — or exhaustion of all
mirrors with the accumulated `exceptions` list. -/
inductive LoopResult where
  | success : Nat → Bytes → LoopResult
  | exhausted : List (String × FetchError) → LoopResult
deriving DecidableEq, Repr

/-- The `for url in urls` loop of `download_` (lines 85–99), instrumented
with the list of URLs actually attempted (first component).  On a successful
attempt the loop returns at once; on a failed one it appends
`(url, error)` to `excs` and continues; when the list is spent it raises
with the accumulated `exceptions`. -/
def download_loop (fetch : String → Except FetchError Bytes) :
    List String → List (String × FetchError) → List String × LoopResult
  | [], excs => ([], .exhausted excs)
  | url :: rest, excs =>
    match fetch url with
    | .ok page => ([url], .success excs.length page)
    | .error e =>
      let r := download_loop fetch rest (excs ++ [(url, e)])
      (url :: r.1, r.2)

/-- Terminal outcome of one item, as in the source: skipped (target already
present), succeeded (with the index of the winning mirror and the payload
written), or failed with the full `exceptions` list. -/
inductive Outcome where
  | skipped : Outcome
  | succeeded : Nat → Bytes → Outcome
  | failed : List (String × FetchError) → Outcome
deriving DecidableEq, Repr

/-- Whether an outcome is the failure outcome. -/
def Outcome.isFailed : Outcome → Bool
  | .failed _ => true
  | _ => false

/-- Run of one item: the URLs attempted (in order), the terminal outcome,
and the filesystem afterwards. -/
structure ItemRun where
  attempts : List String
  outcome : Outcome
  fs : FS
deriving DecidableEq, Repr

/-- The inner function `download_` of `MangaDownloader._download`
(lines 78–99): if the target path exists, skip with no attempt; otherwise
create the parent directories and run the mirror loop, writing the payload
to the target on first success. -/
def download_ (net : Request → Except NetError HttpResponse) (fs : FS)
    (to_path : FsPath) (urls : List String) : ItemRun :=
  if pathExists fs to_path then
    { attempts := [], outcome := .skipped, fs := fs }
  else
    let fs1 := mkdir_parents fs to_path.dropLast
    match download_loop (download__ net) urls [] with
    | (attempted, .success idx page) =>
      { attempts := attempted, outcome := .succeeded idx page,
        fs := writeFile fs1 to_path page }
    | (attempted, .exhausted excs) =>
      { attempts := attempted, outcome := .failed excs, fs := fs1 }

/-- Batch-level error: the single exception that `asyncio.gather` (called
without `return_exceptions`) propagates when some task raises — the
`Exception('Failed to download {to_path}: {exceptions}')` of one item. -/
inductive BatchError where
  | itemFailed : FsPath → List (String × FetchError) → BatchError
deriving DecidableEq, Repr

/-- Result of one `_download` batch: terminal outcome per item (each tagged
with its target path), the filesystem afterwards, and the batch result. -/
structure BatchRun where
  outcomes : List (FsPath × Outcome)
  fs : FS
  result : Except BatchError Unit
deriving Repr

/-- Run every item's `download_` task to its terminal outcome, threading the
filesystem; the model linearizes the `asyncio.gather` tasks in submission
order (gather does not cancel sibling tasks when one raises). -/
def run_items (net : Request → Except NetError HttpResponse) (fs : FS) :
    List (FsPath × List String) → FS × List (FsPath × Outcome)
  | [] => (fs, [])
  | (p, urls) :: rest =>
    let r := download_ net fs p urls
    let k := run_items net r.fs rest
    (k.1, (p, r.outcome) :: k.2)

/-- The first failed item of a batch, if any: `asyncio.gather` without
`return_exceptions` propagates a single raised exception, not an aggregate
of every failure. -/
def first_failure : List (FsPath × Outcome) → Option (FsPath × List (String × FetchError))
  | [] => none
  | (p, Outcome.failed excs) :: _ => some (p, excs)
  | (_, Outcome.skipped) :: rest => first_failure rest
  | (_, Outcome.succeeded _ _) :: rest => first_failure rest

/-- `MangaDownloader._download` (lines 102–105): gather all `download_`
tasks; if every item reached a non-failure outcome the batch returns
cleanly, otherwise the first failed item's own exception is what propagates
out of `gather` — no mapping over all failed items is built. -/
def _download (net : Request → Except NetError HttpResponse) (fs : FS)
    (items : List (FsPath × List String)) : BatchRun :=
  let k := run_items net fs items
  { outcomes := k.2
    fs := k.1
    result :=
      match first_failure k.2 with
      | some (p, excs) => .error (.itemFailed p excs)
      | none => .ok () }

/-- The target paths of the items that failed in a batch. -/
def failed_targets (l : List (FsPath × Outcome)) : List FsPath :=
  (l.filter (fun po => po.2.isFailed)).map Prod.fst

/-- The target paths a batch error actually references. -/
def error_targets : Except BatchError Unit → List FsPath
  | .error (.itemFailed p _) => [p]
  | .ok _ => []

/-- A raw chapter record as embedded in the catalog data
(`self.data['chapters']`). -/
structure RawChapter where
  chapter_name : String
  chapter_volume : String
  chapter_number : String
deriving DecidableEq, Repr

/-- A processed chapter record as built by `_parse_chapters`. -/
structure ChapterInfo where
  name : String
  volume : String
  number : String
  url : String
deriving DecidableEq, Repr

/-- `MangaDownloader.base_url`. -/
def base_url : String := "https://mangalib.me/"

/-- `MangaDownloader._parse_chapters` (lines 35–45): map the raw chapter
list, reversed, to processed records, building each chapter URL as
`base_url + slug + "/v" + volume + "/c" + number`. -/
def _parse_chapters (slug : String) (chapters : List RawChapter) : List ChapterInfo :=
  chapters.reverse.map (fun c =>
    { name := c.chapter_name
      volume := c.chapter_volume
      number := c.chapter_number
      url := (base_url ++ slug) ++ "/v" ++ c.chapter_volume ++ "/c" ++ c.chapter_number })

/-- The catalog data the constructor fetches: the work slug and the raw
chapter array (`window.__DATA__`). -/
structure MangaData where
  slug : String
  chapters : List RawChapter
deriving DecidableEq, Repr

/-- Failure of the catalog fetch-and-extract step (`_get_manga_data`). -/
inductive GetError where
  | unavailable : GetError
deriving DecidableEq, Repr

/-- Failure of the constructor. -/
inductive InitError where
  | notMangalib : InitError
  | dataFetchFailed : GetError → InitError
deriving DecidableEq, Repr

/-- Python `str.startswith`, on the character sequence of the strings. -/
def startswith (s pre : String) : Bool :=
  pre.data.isPrefixOf s.data

/-- `MangaDownloader.__init__` (lines 16–26): reject a URL that does not
start with `base_url` before anything else; otherwise fetch the catalog
data (recording the URL requested, first component) and parse the chapter
list.  The first component lists the network requests performed. -/
def manga_downloader_init (get_data : String → Except GetError MangaData)
    (manga_url : String) :
    List String × Except InitError (MangaData × List ChapterInfo) :=
  if startswith manga_url base_url = false then
    ([], .error .notMangalib)
  else
    match get_data manga_url with
    | .error e => ([manga_url], .error (.dataFetchFailed e))
    | .ok d => ([manga_url], .ok (d, _parse_chapters d.slug d.chapters))

/-- `path = path / self.data['manga']['slug']` at the top of
`MangaDownloader.download` (line 108). -/
def work_path (root : FsPath) (slug : String) : FsPath :=
  root ++ [slug]

/-- The item list built by `download_chapter` (lines 112–115): page `i`
(from `enumerate`, starting at 0) is written to
`path / chapter['number'] / f"{i}.jpg"` and carries that page's mirror
URL list. -/
def chapter_items (path : FsPath) (number : String) (pages : List (List String)) :
    List (FsPath × List String) :=
  pages.enum.map (fun ip => (path ++ [number] ++ [toString ip.1 ++ (".jpg")], ip.2))

deriving instance DecidableEq for Except

/-! ### Properties of the single-source fetcher and the mirror loop -/

/-- If every URL in the list fails, the loop attempts them all in order and
raises with the accumulator extended by one `(url, error)` pair per URL, in
order. -/
theorem download_loop_exhausted (fetch : String → Except FetchError Bytes) :
    ∀ (urls : List String) (excs : List (String × FetchError)),
    (∀ u ∈ urls, fetch_ok (fetch u) = false) →
    download_loop fetch urls excs =
      (urls, .exhausted (excs ++ urls.map (fun u => (u, errOf (fetch u))))) := by
  intro urls
  induction urls with
  | nil => intro excs _; simp [download_loop]
  | cons url rest ih =>
    intro excs h
    have hu := h url (List.mem_cons_self _ _)
    rw [fetch_ok_false_iff] at hu
    obtain ⟨e, he⟩ := hu
    have hrest : ∀ u ∈ rest, fetch_ok (fetch u) = false :=
      fun u hu2 => h u (List.mem_cons_of_mem _ hu2)
    simp only [download_loop, he]
    rw [ih (excs ++ [(url, e)]) hrest]
    simp [errOf, he]

/-- If the mirror at position `k` succeeds and every earlier mirror fails,
the loop attempts exactly the first `k + 1` URLs in order and returns that
mirror's payload tagged with index `excs.length + k`. -/
theorem download_loop_success (fetch : String → Except FetchError Bytes) :
    ∀ (urls : List String) (excs : List (String × FetchError)) (k : Nat)
      (hk : k < urls.length) (page : Bytes),
    fetch (urls.get ⟨k, hk⟩) = .ok page →
    (∀ j (hj : j < k), fetch_ok (fetch (urls.get ⟨j, Nat.lt_trans hj hk⟩)) = false) →
    download_loop fetch urls excs = (urls.take (k + 1), .success (excs.length + k) page) := by
  intro urls
  induction urls with
  | nil => intro excs k hk; exact absurd hk (by simp)
  | cons url rest ih =>
    intro excs k hk page hok hbefore
    cases k with
    | zero =>
      have h0 : fetch url = .ok page := by simpa using hok
      simp [download_loop, h0]
    | succ k' =>
      have h0 : fetch_ok (fetch url) = false := by simpa using hbefore 0 (Nat.succ_pos k')
      rw [fetch_ok_false_iff] at h0
      obtain ⟨e, he⟩ := h0
      have hk' : k' < rest.length := Nat.lt_of_succ_lt_succ hk
      have hok' : fetch (rest.get ⟨k', hk'⟩) = .ok page := by simpa using hok
      have hbefore' : ∀ j (hj : j < k'),
          fetch_ok (fetch (rest.get ⟨j, Nat.lt_trans hj hk'⟩)) = false := by
        intro j hj
        simpa using hbefore (j + 1) (Nat.succ_lt_succ hj)
      simp only [download_loop, he]
      rw [ih (excs ++ [(url, e)]) k' hk' page hok' hbefore']
      simp only [List.take_succ_cons, List.length_append, List.length_cons, List.length_nil]
      have harith : excs.length + (0 + 1) + k' = excs.length + (k' + 1) := by omega
      rw [harith]

/-! ### Properties of one item's pipeline (`download_`) -/

/-- Unfolding of `download_` when the target is absent and the loop
succeeds. -/
theorem download__eq_success (net : Request → Except NetError HttpResponse)
    (fs : FS) (to_path : FsPath) (urls : List String)
    (attempted : List String) (idx : Nat) (page : Bytes)
    (hnew : pathExists fs to_path = false)
    (hloop : download_loop (download__ net) urls [] = (attempted, .success idx page)) :
    download_ net fs to_path urls =
      { attempts := attempted, outcome := .succeeded idx page,
        fs := writeFile (mkdir_parents fs to_path.dropLast) to_path page } := by
  simp [download_, hnew, hloop]

/-- Unfolding of `download_` when the target is absent and every mirror
fails. -/
theorem download__eq_exhausted (net : Request → Except NetError HttpResponse)
    (fs : FS) (to_path : FsPath) (urls : List String)
    (attempted : List String) (excs : List (String × FetchError))
    (hnew : pathExists fs to_path = false)
    (hloop : download_loop (download__ net) urls [] = (attempted, .exhausted excs)) :
    download_ net fs to_path urls =
      { attempts := attempted, outcome := .failed excs,
        fs := mkdir_parents fs to_path.dropLast } := by
  simp [download_, hnew, hloop]

/-- `mkdir_parents` puts every leading segment of `dir` into the directory
set, whether or not it was already present. -/
theorem mkdir_parents_mem (fs : FS) (dir : FsPath) (d : FsPath)
    (hd : d ∈ leading_dirs dir) : d ∈ (mkdir_parents fs dir).dirs := by
  simp only [mkdir_parents, List.mem_append]
  by_cases h : d ∈ fs.dirs
  · exact Or.inl h
  · right
    rw [List.mem_filter]
    refine ⟨hd, ?_⟩
    simp only [Bool.not_eq_true', List.any_eq_false, decide_eq_true_eq]
    intro e he heq
    exact h (heq ▸ he)

/-- `mkdir_parents` never drops a pre-existing directory. -/
theorem mkdir_parents_keeps (fs : FS) (dir : FsPath) (d : FsPath)
    (hd : d ∈ fs.dirs) : d ∈ (mkdir_parents fs dir).dirs := by
  simp only [mkdir_parents, List.mem_append]
  exact Or.inl hd

/-- C5 helper: when the target is absent, the directories after
`download_` are exactly those created by `mkdir_parents`, in every loop
branch. -/
theorem download__dirs (net : Request → Except NetError HttpResponse)
    (fs : FS) (to_path : FsPath) (urls : List String)
    (hnew : pathExists fs to_path = false) :
    (download_ net fs to_path urls).fs.dirs =
      (mkdir_parents fs to_path.dropLast).dirs := by
  cases hl : download_loop (download__ net) urls [] with
  | mk attempted r =>
    cases r with
    | success idx page =>
      rw [download__eq_success net fs to_path urls attempted idx page hnew hl]
      rfl
    | exhausted excs =>
      rw [download__eq_exhausted net fs to_path urls attempted excs hnew hl]

/-- A network oracle on which every request fails at the connection level
(so every mirror of every item fails). -/
def net_allfail : Request → Except NetError HttpResponse :=
  fun _ => .error .connectionFailed

/-- The empty filesystem. -/
def fs0 : FS := { files := [], dirs := [] }

/-- A filesystem already holding the file `x.jpg`. -/
def fsA : FS := { files := [((["x.jpg"]), [(7 : UInt8)])], dirs := [] }

/-- C5: if a file already exists at the target path the item is reported
skipped, with no fetch attempt and no filesystem change — for any network
oracle, in particular one on which every mirror would fail; if the target
is absent, every leading segment of the parent directory is present in the
directory set afterwards (whether it pre-existed or not), in every branch
of the mirror loop. -/
theorem claim_C5 (net : Request → Except NetError HttpResponse) (fs : FS)
    (to_path : FsPath) (urls : List String) :
    (pathExists fs to_path = true →
      download_ net fs to_path urls =
        { attempts := [], outcome := .skipped, fs := fs })
    ∧ (pathExists fs to_path = false →
      ∀ d ∈ leading_dirs to_path.dropLast,
        d ∈ (download_ net fs to_path urls).fs.dirs) := by
  constructor
  · intro h
    simp [download_, h]
  · intro h d hd
    rw [download__dirs net fs to_path urls h]
    exact mkdir_parents_mem fs to_path.dropLast d hd

/-- C5 witness: on `fsA` (where `x.jpg` exists) the item is skipped with no
attempt even though every mirror would fail; on the empty filesystem the
parent chain `w`, `w/ch` of target `w/ch/0.jpg` is created. -/
theorem claim_C5_witness :
    (pathExists fsA (["x.jpg"]) = true) ∧
    (download_ net_allfail fsA (["x.jpg"]) [("u")] =
      { attempts := [], outcome := .skipped, fs := fsA }) ∧
    (pathExists fs0 (["w", "ch", "0.jpg"]) = false) ∧
    ((["w"]) ∈ (download_ net_allfail fs0 (["w", "ch", "0.jpg"]) [("u")]).fs.dirs) ∧
    ((["w", "ch"]) ∈ (download_ net_allfail fs0 (["w", "ch", "0.jpg"]) [("u")]).fs.dirs) :=
  ⟨rfl,
   (claim_C5 net_allfail fsA (["x.jpg"]) [("u")]).1 rfl,
   rfl,
   (claim_C5 net_allfail fs0 (["w", "ch", "0.jpg"]) [("u")]).2 rfl (["w"]) (by decide),
   (claim_C5 net_allfail fs0 (["w", "ch", "0.jpg"]) [("u")]).2 rfl (["w", "ch"]) (by decide)⟩

/-- If some URL in the list succeeds there is a first one: an index whose
fetch succeeds while every earlier fetch fails. -/
theorem exists_first_ok (fetch : String → Except FetchError Bytes) :
    ∀ (urls : List String), (∃ u ∈ urls, fetch_ok (fetch u) = true) →
    ∃ k, ∃ hk : k < urls.length, fetch_ok (fetch (urls.get ⟨k, hk⟩)) = true ∧
      ∀ j (hj : j < k), fetch_ok (fetch (urls.get ⟨j, Nat.lt_trans hj hk⟩)) = false := by
  intro urls
  induction urls with
  | nil =>
    rintro ⟨u, hu, _⟩
    cases hu
  | cons url rest ih =>
    intro h
    by_cases h0 : fetch_ok (fetch url) = true
    · exact ⟨0, Nat.succ_pos _, by simpa using h0,
        fun j hj => absurd hj (Nat.not_lt_zero j)⟩
    · have h0' : fetch_ok (fetch url) = false := by
        cases hfo : fetch_ok (fetch url)
        · rfl
        · exact absurd hfo h0
      obtain ⟨u, hu, hou⟩ := h
      rcases List.mem_cons.mp hu with rfl | hmem
      · exact absurd hou h0
      · obtain ⟨k, hk, hok, hbef⟩ := ih ⟨u, hmem, hou⟩
        refine ⟨k + 1, Nat.succ_lt_succ hk, by simpa using hok, ?_⟩
        intro j hj
        cases j with
        | zero => simpa using h0'
        | succ j' => simpa using hbef j' (Nat.lt_of_succ_lt_succ hj)

/-- C2: for an item whose target is absent and which has some succeeding
mirror, `download_` attempts the mirrors strictly in list order up to the
first success (`attempts = urls.take (idx + 1)`), every earlier mirror
having failed, and the outcome carries that mirror's payload together with
its index. -/
theorem claim_C2 (net : Request → Except NetError HttpResponse) (fs : FS)
    (to_path : FsPath) (urls : List String)
    (hnew : pathExists fs to_path = false)
    (hsome : ∃ u ∈ urls, fetch_ok (download__ net u) = true) :
    ∃ idx, ∃ hidx : idx < urls.length, ∃ page : Bytes,
      download__ net (urls.get ⟨idx, hidx⟩) = .ok page ∧
      (download_ net fs to_path urls).outcome = .succeeded idx page ∧
      (download_ net fs to_path urls).attempts = urls.take (idx + 1) ∧
      ∀ j (hj : j < idx),
        fetch_ok (download__ net (urls.get ⟨j, Nat.lt_trans hj hidx⟩)) = false := by
  obtain ⟨k, hk, hok, hbef⟩ := exists_first_ok (download__ net) urls hsome
  rw [fetch_ok_true_iff] at hok
  obtain ⟨page, hpage⟩ := hok
  have hloop := download_loop_success (download__ net) urls [] k hk page hpage hbef
  simp only [List.length_nil, Nat.zero_add] at hloop
  rw [download__eq_success net fs to_path urls (urls.take (k + 1)) k page hnew hloop]
  exact ⟨k, hk, page, hpage, rfl, rfl, hbef⟩

/-- Oracle for the C2 witness: mirrors `m1` and `m2` answer 500, `m3`
answers 200 with a nonempty body. -/
def net_c2 : Request → Except NetError HttpResponse :=
  fun r =>
    if r.url = "m3" then .ok { status := 200, body := [(9 : UInt8)] }
    else .ok { status := 500, body := [] }

/-- C2 witness: with mirrors `[m1, m2, m3]` where the first two fail and
the third succeeds, the item succeeds with mirror index 2, having attempted
all three in order. -/
theorem claim_C2_witness :
    ((download_ net_c2 fs0 (["p.jpg"]) [("m1"), ("m2"), ("m3")]).outcome =
      Outcome.succeeded 2 [(9 : UInt8)]) ∧
    ((download_ net_c2 fs0 (["p.jpg"]) [("m1"), ("m2"), ("m3")]).attempts =
      [("m1"), ("m2"), ("m3")]) ∧
    (∃ idx, ∃ hidx : idx < ([("m1"), ("m2"), ("m3")] : List String).length, ∃ page : Bytes,
      download__ net_c2 (([("m1"), ("m2"), ("m3")] : List String).get ⟨idx, hidx⟩) = .ok page ∧
      (download_ net_c2 fs0 (["p.jpg"]) [("m1"), ("m2"), ("m3")]).outcome = .succeeded idx page ∧
      (download_ net_c2 fs0 (["p.jpg"]) [("m1"), ("m2"), ("m3")]).attempts =
        ([("m1"), ("m2"), ("m3")] : List String).take (idx + 1) ∧
      ∀ j (hj : j < idx),
        fetch_ok (download__ net_c2 (([("m1"), ("m2"), ("m3")] : List String).get
          ⟨j, Nat.lt_trans hj hidx⟩)) = false) :=
  ⟨by decide, by decide,
   claim_C2 net_c2 fs0 (["p.jpg"]) [("m1"), ("m2"), ("m3")] rfl
     ⟨("m3"), by decide, by decide⟩⟩

/-- C4: for an item whose target is absent and whose every mirror fails,
`download_` attempts every mirror in order and fails with exactly one
`(url, error)` pair per mirror, in attempt order. -/
theorem claim_C4 (net : Request → Except NetError HttpResponse) (fs : FS)
    (to_path : FsPath) (urls : List String)
    (hnew : pathExists fs to_path = false)
    (hall : ∀ u ∈ urls, fetch_ok (download__ net u) = false) :
    ((download_ net fs to_path urls).outcome =
      .failed (urls.map (fun u => (u, errOf (download__ net u))))) ∧
    ((download_ net fs to_path urls).attempts = urls) := by
  have hloop := download_loop_exhausted (download__ net) urls [] hall
  simp only [List.nil_append] at hloop
  rw [download__eq_exhausted net fs to_path urls urls
    (urls.map (fun u => (u, errOf (download__ net u)))) hnew hloop]
  exact ⟨rfl, rfl⟩

/-- C4 witness: two mirrors, both failing at the connection level — the
failure carries exactly one pair per mirror, in order, and both mirrors
were attempted. -/
theorem claim_C4_witness :
    ((download_ net_allfail fs0 (["q.jpg"]) [("u1"), ("u2")]).outcome =
      Outcome.failed [(("u1"), .netFailure .connectionFailed),
        (("u2"), .netFailure .connectionFailed)]) ∧
    ((download_ net_allfail fs0 (["q.jpg"]) [("u1"), ("u2")]).attempts =
      [("u1"), ("u2")]) := by
  have h := claim_C4 net_allfail fs0 (["q.jpg"]) [("u1"), ("u2")] rfl (by decide)
  exact ⟨by rw [h.1]; rfl, h.2⟩

/-- C6: classification of one single-source fetch: a network-level failure
or a non-success status — any status ≥ 400, exactly the statuses
`raise_for_status()` raises for — yields a transport-level error; a successful request with a zero-length body yields
the empty-content error; and a zero-length body is never returned as valid
content.  `download__` consults the network oracle exactly once — there is
no retry at this level. -/
theorem claim_C6 (net : Request → Except NetError HttpResponse) (url : String) :
    (∀ e, net (download__request url) = .error e →
      download__ net url = .error (.netFailure e)) ∧
    (∀ response, net (download__request url) = .ok response →
      400 ≤ response.status →
      download__ net url = .error (.httpStatus response.status)) ∧
    (∀ response, net (download__request url) = .ok response →
      ¬400 ≤ response.status → response.body = [] →
      download__ net url = .error .emptyResponse) ∧
    (∀ b, download__ net url = .ok b → b ≠ []) := by
  refine ⟨?_, ?_, ?_, ?_⟩
  · intro e he
    simp [download__, he]
  · intro r hr h4
    simp [download__, hr, h4]
  · intro r hr hns hb
    simp [download__, hr, hns, hb]
  · intro b hb hnil
    cases hnet : net (download__request url) with
    | error e => simp [download__, hnet] at hb
    | ok r =>
      simp only [download__, hnet] at hb
      by_cases hc : 400 ≤ r.status
      · simp [hc] at hb
      · simp only [hc, if_false] at hb
        by_cases he : r.body.isEmpty
        · simp [he] at hb
        · simp only [he, Bool.false_eq_true, if_false] at hb
          have hbody : r.body = b := by
            cases hb
            rfl
          rw [hbody, hnil] at he
          exact he rfl

/-- Oracle answering 404 on every request. -/
def net_404 : Request → Except NetError HttpResponse :=
  fun _ => .ok { status := 404, body := [] }

/-- Oracle answering 200 with an empty body on every request. -/
def net_empty : Request → Except NetError HttpResponse :=
  fun _ => .ok { status := 200, body := [] }

/-- Oracle answering 200 with a nonempty body on every request. -/
def net_ok : Request → Except NetError HttpResponse :=
  fun _ => .ok { status := 200, body := [(1 : UInt8)] }

/-- Oracle timing out on every request. -/
def net_timeout : Request → Except NetError HttpResponse :=
  fun _ => .error .timeout

/-- C6 witness: each failure class at a concrete input, and a successful
fetch whose body is nonempty. -/
theorem claim_C6_witness :
    (download__ net_timeout ("u") = .error (.netFailure .timeout)) ∧
    (download__ net_404 ("u") = .error (.httpStatus 404)) ∧
    (download__ net_empty ("u") = .error .emptyResponse) ∧
    (([(1 : UInt8)] : Bytes) ≠ []) :=
  ⟨(claim_C6 net_timeout ("u")).1 .timeout rfl,
   (claim_C6 net_404 ("u")).2.1 { status := 404, body := [] } rfl (by decide),
   (claim_C6 net_empty ("u")).2.2.1 { status := 200, body := [] } rfl (by decide) rfl,
   (claim_C6 net_ok ("u")).2.2.2 [(1 : UInt8)] rfl⟩

/-! ### Request headers (C3) -/

/-- C3 counterexample: the catalog fetch (`requests.get(manga_url)` in
`_get_manga_data`) passes no headers at all — in particular no referer —
refuting the claim that every fetch carries a referer header; the chapter
page fetch is header-less too. -/
theorem claim_C3_counterexample :
    ((_get_manga_data_request ("https://mangalib.me/manga/x")).headers = []) ∧
    (¬ ∃ v, (("referer"), v) ∈
      (_get_manga_data_request ("https://mangalib.me/manga/x")).headers) ∧
    ((get_chapter_pages_request ("https://mangalib.me/manga/x/v1/c1")).headers = []) := by
  refine ⟨rfl, ?_, rfl⟩
  rintro ⟨v, hv⟩
  simp [_get_manga_data_request, requests_get] at hv

/-- C3 (amended): only the image mirror fetch carries the referer header
identifying the origin site; the catalog fetch and the chapter-page fetch
pass no headers. -/
theorem claim_C3 (u : String) :
    ((download__request u).headers = [(("referer"), ("https://mangalib.me/"))]) ∧
    ((_get_manga_data_request u).headers = []) ∧
    ((get_chapter_pages_request u).headers = []) :=
  ⟨rfl, rfl, rfl⟩

/-! ### Target paths (C8) and chapter parsing (C9) -/

/-- C8: the item list built for a chapter has exactly one entry per page;
the entry at index `i` (indices from 0, in the page list's resolved order)
targets `<output-root>/<work-slug>/<chapter-number>/<i>.jpg` and carries
page `i`'s mirror list. -/
theorem claim_C8 (root : FsPath) (slug number : String) (pages : List (List String)) :
    ((chapter_items (work_path root slug) number pages).length = pages.length) ∧
    (∀ i : Nat, (chapter_items (work_path root slug) number pages)[i]? =
      pages[i]?.map (fun page_urls =>
        (root ++ [slug, number, toString i ++ (".jpg")], page_urls))) := by
  constructor
  · simp [chapter_items]
  · intro i
    simp only [chapter_items, work_path]
    rw [List.getElem?_map, List.getElem?_enum]
    cases pages[i]? <;> simp

/-- C8 witness: two pages produce two items at `root/slug/num/0.jpg` and
`root/slug/num/1.jpg`, in page order. -/
theorem claim_C8_witness :
    ((chapter_items (work_path (["root"]) ("slug")) ("3") [[("a")], [("b")]]).length = 2) ∧
    ((chapter_items (work_path (["root"]) ("slug")) ("3") [[("a")], [("b")]])[0]? =
      some ((["root", "slug", "3", "0.jpg"]), [("a")])) ∧
    ((chapter_items (work_path (["root"]) ("slug")) ("3") [[("a")], [("b")]])[1]? =
      some ((["root", "slug", "3", "1.jpg"]), [("b")])) :=
  ⟨(claim_C8 (["root"]) ("slug") ("3") [[("a")], [("b")]]).1,
   ((claim_C8 (["root"]) ("slug") ("3") [[("a")], [("b")]]).2 0).trans (by decide),
   ((claim_C8 (["root"]) ("slug") ("3") [[("a")], [("b")]]).2 1).trans (by decide)⟩

/-- C9: `_parse_chapters` preserves the length of the raw chapter array and
its entry at index `i` is built from raw entry `n - 1 - i` (the reversal of
the embedded array), copying name, volume and number and deriving the URL
as `base_url + slug + "/v" + volume + "/c" + number`. -/
theorem claim_C9 (slug : String) (raws : List RawChapter) :
    ((_parse_chapters slug raws).length = raws.length) ∧
    (∀ i, i < raws.length →
      (_parse_chapters slug raws)[i]? =
        (raws[raws.length - 1 - i]?).map (fun c =>
          { name := c.chapter_name
            volume := c.chapter_volume
            number := c.chapter_number
            url := (base_url ++ slug) ++ "/v" ++ c.chapter_volume ++ "/c" ++
              c.chapter_number })) := by
  constructor
  · simp [_parse_chapters]
  · intro i hi
    simp only [_parse_chapters]
    rw [List.getElem?_map, List.getElem?_reverse (by simpa using hi)]

/-- C9 witness: a two-chapter raw array produces a two-chapter list whose
first entry is built from the second raw entry, with the derived URL. -/
theorem claim_C9_witness :
    ((_parse_chapters ("slug") [{ chapter_name := "A", chapter_volume := "1", chapter_number := "1" },
        { chapter_name := "B", chapter_volume := "1", chapter_number := "2" }]).length = 2) ∧
    ((_parse_chapters ("slug") [{ chapter_name := "A", chapter_volume := "1", chapter_number := "1" },
        { chapter_name := "B", chapter_volume := "1", chapter_number := "2" }])[0]? =
      some { name := ("B"), volume := ("1"), number := ("2"),
             url := ((base_url ++ "slug") ++ "/v" ++ "1" ++ "/c" ++ "2") }) :=
  ⟨(claim_C9 ("slug") [{ chapter_name := "A", chapter_volume := "1", chapter_number := "1" },
      { chapter_name := "B", chapter_volume := "1", chapter_number := "2" }]).1,
   ((claim_C9 ("slug") [{ chapter_name := "A", chapter_volume := "1", chapter_number := "1" },
      { chapter_name := "B", chapter_volume := "1", chapter_number := "2" }]).2 0
        (by decide)).trans (by rfl)⟩

/-! ### Constructor URL guard (C10) -/

/-- C10: a constructor argument that does not start with
`https://mangalib.me/` is rejected before any network request: the request
list is empty and the result is the rejection error, for every possible
network behaviour. -/
theorem claim_C10 (get_data : String → Except GetError MangaData) (manga_url : String)
    (h : startswith manga_url base_url = false) :
    manga_downloader_init get_data manga_url = ([], .error .notMangalib) := by
  simp [manga_downloader_init, h]

/-- C10 witness: an `http://` (not `https://`) URL is rejected with no
request performed, even on an oracle that would answer successfully. -/
theorem claim_C10_witness :
    (startswith ("http://mangalib.me/manga/x") base_url = false) ∧
    (manga_downloader_init
      (fun _ => Except.ok { slug := ("s"), chapters := ([] : List RawChapter) })
      ("http://mangalib.me/manga/x") = ([], .error .notMangalib)) :=
  ⟨by decide,
   claim_C10 (fun _ => Except.ok { slug := ("s"), chapters := ([] : List RawChapter) })
     ("http://mangalib.me/manga/x") (by decide)⟩

/-! ### Batch orchestration (C1) -/

/-- `download_` never removes a file: writes only prepend and directory
creation leaves files untouched. -/
theorem download__files_mono (net : Request → Except NetError HttpResponse)
    (fs : FS) (to_path : FsPath) (urls : List String)
    (x : FsPath × Bytes) (hx : x ∈ fs.files) :
    x ∈ (download_ net fs to_path urls).fs.files := by
  by_cases h : pathExists fs to_path = true
  · simpa [download_, h] using hx
  · have h' : pathExists fs to_path = false := by
      cases hb : pathExists fs to_path
      · rfl
      · exact absurd hb h
    cases hl : download_loop (download__ net) urls [] with
    | mk attempted r =>
      cases r with
      | success idx page =>
        rw [download__eq_success net fs to_path urls attempted idx page h' hl]
        simp only [writeFile, mkdir_parents, List.mem_cons]
        exact Or.inr hx
      | exhausted excs =>
        rw [download__eq_exhausted net fs to_path urls attempted excs h' hl]
        simpa [mkdir_parents] using hx

/-- A successful item's payload is on the filesystem `download_` leaves
behind, at the item's target path. -/
theorem download__succeeded_written (net : Request → Except NetError HttpResponse)
    (fs : FS) (to_path : FsPath) (urls : List String) (idx : Nat) (page : Bytes)
    (h : (download_ net fs to_path urls).outcome = .succeeded idx page) :
    (to_path, page) ∈ (download_ net fs to_path urls).fs.files := by
  by_cases hex : pathExists fs to_path = true
  · simp [download_, hex] at h
  · have h' : pathExists fs to_path = false := by
      cases hb : pathExists fs to_path
      · rfl
      · exact absurd hb hex
    cases hl : download_loop (download__ net) urls [] with
    | mk attempted r =>
      cases r with
      | success i pg =>
        rw [download__eq_success net fs to_path urls attempted i pg h' hl] at h ⊢
        simp only [Outcome.succeeded.injEq] at h
        obtain ⟨-, hpg⟩ := h
        simp only [writeFile, List.mem_cons]
        exact Or.inl (by rw [hpg])
      | exhausted excs =>
        rw [download__eq_exhausted net fs to_path urls attempted excs h' hl] at h
        simp at h

/-- Every item of the batch appears in the outcome list, tagged with its own
target, in submission order. -/
theorem run_items_fst (net : Request → Except NetError HttpResponse) :
    ∀ (fs : FS) (items : List (FsPath × List String)),
    (run_items net fs items).2.map Prod.fst = items.map Prod.fst := by
  intro fs items
  induction items generalizing fs with
  | nil => simp [run_items]
  | cons it rest ih =>
    cases it with
    | mk p urls => simp [run_items, ih]

/-- Running a batch never removes a file. -/
theorem run_items_files_mono (net : Request → Except NetError HttpResponse) :
    ∀ (fs : FS) (items : List (FsPath × List String)) (x : FsPath × Bytes),
    x ∈ fs.files → x ∈ (run_items net fs items).1.files := by
  intro fs items
  induction items generalizing fs with
  | nil =>
    intro x hx
    simpa [run_items] using hx
  | cons it rest ih =>
    cases it with
    | mk p urls =>
      intro x hx
      simp only [run_items]
      exact ih _ x (download__files_mono net fs p urls x hx)

/-- Every item the batch reports as succeeded has its payload on the final
filesystem, at its target path. -/
theorem run_items_succeeded_written (net : Request → Except NetError HttpResponse) :
    ∀ (fs : FS) (items : List (FsPath × List String)) (p : FsPath) (idx : Nat) (page : Bytes),
    (p, Outcome.succeeded idx page) ∈ (run_items net fs items).2 →
    (p, page) ∈ (run_items net fs items).1.files := by
  intro fs items
  induction items generalizing fs with
  | nil =>
    intro p idx page h
    simp [run_items] at h
  | cons it rest ih =>
    cases it with
    | mk q urls =>
      intro p idx page h
      simp only [run_items, List.mem_cons] at h
      simp only [run_items]
      rcases h with heq | hmem
      · rw [Prod.mk.injEq] at heq
        obtain ⟨hpq, hout⟩ := heq
        subst hpq
        exact run_items_files_mono net _ rest (p, page)
          (download__succeeded_written net fs p urls idx page hout.symm)
      · exact ih _ p idx page hmem

/-- A batch with no failed outcome has no first failure. -/
theorem first_failure_none_iff :
    ∀ (l : List (FsPath × Outcome)),
    first_failure l = none ↔ ∀ po ∈ l, (po : FsPath × Outcome).2.isFailed = false := by
  intro l
  induction l with
  | nil => simp [first_failure]
  | cons po rest ih =>
    cases po with
    | mk p o =>
      cases o with
      | skipped =>
        rw [show first_failure ((p, Outcome.skipped) :: rest) = first_failure rest from rfl, ih]
        constructor
        · intro h qo hqo
          rcases List.mem_cons.mp hqo with rfl | hm
          · rfl
          · exact h qo hm
        · intro h qo hqo
          exact h qo (List.mem_cons_of_mem _ hqo)
      | succeeded i pg =>
        rw [show first_failure ((p, Outcome.succeeded i pg) :: rest) = first_failure rest from
          rfl, ih]
        constructor
        · intro h qo hqo
          rcases List.mem_cons.mp hqo with rfl | hm
          · rfl
          · exact h qo hm
        · intro h qo hqo
          exact h qo (List.mem_cons_of_mem _ hqo)
      | failed excs =>
        constructor
        · intro h
          exact Option.noConfusion h
        · intro h
          have hne := h (p, Outcome.failed excs) (List.mem_cons_self _ _)
          simp [Outcome.isFailed] at hne

/-- The first failure of a batch is a genuinely failed item of the batch,
and every item listed before it did not fail. -/
theorem first_failure_some_spec :
    ∀ (l : List (FsPath × Outcome)) (p : FsPath) (excs : List (String × FetchError)),
    first_failure l = some (p, excs) →
    ∃ pre post, l = pre ++ (p, Outcome.failed excs) :: post ∧
      ∀ qo ∈ pre, (qo : FsPath × Outcome).2.isFailed = false := by
  intro l
  induction l with
  | nil =>
    intro p excs h
    simp [first_failure] at h
  | cons po rest ih =>
    cases po with
    | mk q o =>
      intro p excs h
      cases o with
      | failed e2 =>
        simp only [first_failure, Option.some.injEq, Prod.mk.injEq] at h
        obtain ⟨rfl, rfl⟩ := h
        exact ⟨[], rest, rfl, by simp⟩
      | skipped =>
        simp only [first_failure] at h
        obtain ⟨pre, post, rfl, hpre⟩ := ih p excs h
        refine ⟨(q, .skipped) :: pre, post, rfl, ?_⟩
        intro qo hqo
        rcases List.mem_cons.mp hqo with rfl | hm
        · rfl
        · exact hpre qo hm
      | succeeded i pg =>
        simp only [first_failure] at h
        obtain ⟨pre, post, rfl, hpre⟩ := ih p excs h
        refine ⟨(q, .succeeded i pg) :: pre, post, rfl, ?_⟩
        intro qo hqo
        rcases List.mem_cons.mp hqo with rfl | hm
        · rfl
        · exact hpre qo hm

/-- C1 (amended): every item of a batch is driven to a terminal outcome and
every succeeded item's file is written; the batch result is clean exactly
when no item failed; and when the batch raises, the propagated error is
the failure of one single item — the first failed one — carrying only that
item's target and mirror failures, not a mapping over all failed items. -/
theorem claim_C1 (net : Request → Except NetError HttpResponse) (fs : FS)
    (items : List (FsPath × List String)) :
    ((_download net fs items).outcomes.map Prod.fst = items.map Prod.fst)
    ∧ (∀ p idx page,
        (p, Outcome.succeeded idx page) ∈ (_download net fs items).outcomes →
        (p, page) ∈ (_download net fs items).fs.files)
    ∧ ((_download net fs items).result = .ok () ↔
        ∀ po ∈ (_download net fs items).outcomes,
          (po : FsPath × Outcome).2.isFailed = false)
    ∧ (∀ p excs, (_download net fs items).result = .error (.itemFailed p excs) →
        ∃ pre post,
          (_download net fs items).outcomes = pre ++ (p, Outcome.failed excs) :: post ∧
          ∀ qo ∈ pre, (qo : FsPath × Outcome).2.isFailed = false) := by
  have hout : (_download net fs items).outcomes = (run_items net fs items).2 := rfl
  have hfs : (_download net fs items).fs = (run_items net fs items).1 := rfl
  refine ⟨?_, ?_, ?_, ?_⟩
  · rw [hout]
    exact run_items_fst net fs items
  · intro p idx page h
    rw [hout] at h
    rw [hfs]
    exact run_items_succeeded_written net fs items p idx page h
  · rw [hout]
    cases hff : first_failure (run_items net fs items).2 with
    | none =>
      have hres : (_download net fs items).result = .ok () := by
        simp [_download, hff]
      rw [hres]
      constructor
      · intro _
        exact (first_failure_none_iff (run_items net fs items).2).mp hff
      · intro _
        rfl
    | some pe =>
      cases pe with
      | mk p excs =>
        have hres : (_download net fs items).result = .error (.itemFailed p excs) := by
          simp [_download, hff]
        rw [hres]
        obtain ⟨pre, post, hl, -⟩ := first_failure_some_spec _ p excs hff
        constructor
        · intro hcon
          cases hcon
        · intro hall
          have : Outcome.isFailed (Outcome.failed excs) = false := by
            have := hall (p, Outcome.failed excs) (by rw [hl]; simp)
            simpa using this
          simp [Outcome.isFailed] at this
  · intro p excs h
    rw [hout]
    cases hff : first_failure (run_items net fs items).2 with
    | none =>
      have hres : (_download net fs items).result = .ok () := by
        simp [_download, hff]
      rw [hres] at h
      cases h
    | some pe =>
      cases pe with
      | mk q e2 =>
        have hres : (_download net fs items).result = .error (.itemFailed q e2) := by
          simp [_download, hff]
        rw [hres] at h
        simp only [Except.error.injEq, BatchError.itemFailed.injEq] at h
        obtain ⟨rfl, rfl⟩ := h
        exact first_failure_some_spec _ _ _ hff

/-- Batch of two items, each with one mirror; on `net_allfail` both fail. -/
def items2 : List (FsPath × List String) :=
  [((["a.jpg"]), [("u1")]), ((["b.jpg"]), [("u2")])]

/-- C1 counterexample: in a batch where two items fail, the error the batch
raises references only the first failed item's target — it is not a mapping
from each failed item's target to its failure detail, since `b.jpg` failed
as well but is absent from the error. -/
theorem claim_C1_counterexample :
    (failed_targets (_download net_allfail fs0 items2).outcomes =
      [(["a.jpg"]), (["b.jpg"])]) ∧
    (error_targets (_download net_allfail fs0 items2).result = [(["a.jpg"])]) ∧
    ((["b.jpg"]) ∉ error_targets (_download net_allfail fs0 items2).result) := by
  exact ⟨by decide, by decide, by decide⟩

/-- Oracle for the C1 witness: mirror `u2` fails, all others serve a
nonempty 200 response. -/
def net_w1 : Request → Except NetError HttpResponse :=
  fun r =>
    if r.url = "u2" then .error .connectionFailed
    else .ok { status := 200, body := [(3 : UInt8)] }

/-- Batch of three items where only the middle one has a failing mirror. -/
def items3 : List (FsPath × List String) :=
  [((["a.jpg"]), [("u1")]), ((["b.jpg"]), [("u2")]), ((["c.jpg"]), [("u3")])]

/-- C1 witness: all three items reach a terminal outcome, the succeeding
item's file is written, and the raised error is the (single) failure of
`b.jpg`, the first failed item. -/
theorem claim_C1_witness :
    ((_download net_w1 fs0 items3).outcomes.map Prod.fst = items3.map Prod.fst) ∧
    (((["a.jpg"]), ([(3 : UInt8)] : Bytes)) ∈ (_download net_w1 fs0 items3).fs.files) ∧
    (∃ pre post, (_download net_w1 fs0 items3).outcomes =
      pre ++ ((["b.jpg"]), Outcome.failed [(("u2"), .netFailure .connectionFailed)]) :: post ∧
      ∀ qo ∈ pre, (qo : FsPath × Outcome).2.isFailed = false) :=
  ⟨(claim_C1 net_w1 fs0 items3).1,
   (claim_C1 net_w1 fs0 items3).2.1 (["a.jpg"]) 0 [(3 : UInt8)] (by decide),
   (claim_C1 net_w1 fs0 items3).2.2.2 (["b.jpg"])
     [(("u2"), .netFailure .connectionFailed)] (by decide)⟩
